import Mathlib

set_option linter.unusedVariables false

/-!
Shallow embedding of the SCINE Heron haptic-device core
(`src/haptic/src/openhaptics.cpp`, `src/haptic/include/openhaptics.h`).

Doubles are modelled over `ℚ` wherever the C++ code performs only field
arithmetic and comparisons; the two places where the code calls `sqrt`
(`calculateDistance`, `hduVecMagnitude`) are modelled with `Real.sqrt`,
so distances, magnitudes and the clamped force live in `ℝ`.

The hardware layer (`hd*` / `hdu*` calls) is external: reads become
function parameters (`force_clamp` models `HD_NOMINAL_MAX_CONTINUOUS_FORCE`,
`now` models `std::chrono::steady_clock::now()` in microseconds) and the
single write `hdSetDoublev(HD_CURRENT_FORCE, force)` becomes the returned
force value.  Listener notifications (`callback->...`) are returned as an
event list, one entry per registered callback, in program order.
-/

/-- `hduVector3Dd`: a 3-vector of doubles (device-native or scene values). -/
structure Vec3 where
  x : ℚ
  y : ℚ
  z : ℚ
deriving DecidableEq

/-- A 3-vector that may carry irrational components (the clamped force,
whose components are divided by a `sqrt` magnitude). -/
structure RVec3 where
  x : ℝ
  y : ℝ
  z : ℝ

/-- `AtomData` (atom_data.h): id, position, and the centre-to-edge distance
used as the containment radius. -/
structure AtomData where
  index : ℤ
  pos_x : ℚ
  pos_y : ℚ
  pos_z : ℚ
  distance : ℚ
deriving DecidableEq

instance : Inhabited AtomData := ⟨⟨0, 0, 0, 0, 0⟩⟩

def AtomData.getId (a : AtomData) : ℤ := a.index

def AtomData.getPosX (a : AtomData) : ℚ := a.pos_x

def AtomData.getPosY (a : AtomData) : ℚ := a.pos_y

def AtomData.getPosZ (a : AtomData) : ℚ := a.pos_z

def AtomData.getDistance (a : AtomData) : ℚ := a.distance

/-- `HapticData` (haptic_data.h): a pointer sample in application coordinates. -/
structure HapticData where
  pos_x : ℚ
  pos_y : ℚ
  pos_z : ℚ
deriving DecidableEq

def HapticData.getPosX (d : HapticData) : ℚ := d.pos_x

def HapticData.getPosY (d : HapticData) : ℚ := d.pos_y

def HapticData.getPosZ (d : HapticData) : ℚ := d.pos_z

/-- The 4×4 row-major transform matrices (`std::vector<std::vector<double>>`,
always holding 4 rows of 4 entries). -/
abbrev Mat4 := Matrix (Fin 4) (Fin 4) ℚ

/-- `HapticDeviceManager::transformToAppCoordinates` (openhaptics.cpp:9-30):
affine transform by the top three rows, then divide each component by
`scale_factor`. -/
def transformToAppCoordinates (pos : Vec3) (transformation_matrix : Mat4)
    (scale_factor : ℤ) : HapticData :=
  let x := transformation_matrix 0 0 * pos.x +
           transformation_matrix 0 1 * pos.y +
           transformation_matrix 0 2 * pos.z +
           transformation_matrix 0 3
  let y := transformation_matrix 1 0 * pos.x +
           transformation_matrix 1 1 * pos.y +
           transformation_matrix 1 2 * pos.z +
           transformation_matrix 1 3
  let z := transformation_matrix 2 0 * pos.x +
           transformation_matrix 2 1 * pos.y +
           transformation_matrix 2 2 * pos.z +
           transformation_matrix 2 3
  ⟨x / (scale_factor : ℚ), y / (scale_factor : ℚ), z / (scale_factor : ℚ)⟩

/-- `HapticDeviceManager::transformToHapticCoordinates` (openhaptics.cpp:32-53):
multiply each input component by `scale_factor`, then apply the top three
rows of the inverse matrix. -/
def transformToHapticCoordinates (x y z : ℚ) (invert_matrix : Mat4)
    (scale_factor : ℤ) : Vec3 :=
  let new_x := invert_matrix 0 0 * x * (scale_factor : ℚ) +
               invert_matrix 0 1 * y * (scale_factor : ℚ) +
               invert_matrix 0 2 * z * (scale_factor : ℚ) +
               invert_matrix 0 3
  let new_y := invert_matrix 1 0 * x * (scale_factor : ℚ) +
               invert_matrix 1 1 * y * (scale_factor : ℚ) +
               invert_matrix 1 2 * z * (scale_factor : ℚ) +
               invert_matrix 1 3
  let new_z := invert_matrix 2 0 * x * (scale_factor : ℚ) +
               invert_matrix 2 1 * y * (scale_factor : ℚ) +
               invert_matrix 2 2 * z * (scale_factor : ℚ) +
               invert_matrix 2 3
  ⟨new_x, new_y, new_z⟩

/-- `HapticDeviceManager::calculateDistance` (openhaptics.cpp:55-61):
Euclidean distance between an atom and the pointer. -/
noncomputable def calculateDistance (atom : AtomData) (data : HapticData) : ℝ :=
  let x_d : ℚ := (atom.getPosX - data.getPosX) * (atom.getPosX - data.getPosX)
  let y_d : ℚ := (atom.getPosY - data.getPosY) * (atom.getPosY - data.getPosY)
  let z_d : ℚ := (atom.getPosZ - data.getPosZ) * (atom.getPosZ - data.getPosZ)
  Real.sqrt ((x_d + y_d + z_d : ℚ) : ℝ)

open Classical in
/-- The loop body of `findClosestAtomIndex`: scans the remaining atoms with
the running index `i`, current champion `closest_atom_index` (−1 before the
first element) and its distance `best_d` (initially −1.0). -/
noncomputable def findClosestAux (data : HapticData) :
    List AtomData → ℕ → ℤ → ℝ → ℤ
  | [], _, closest_atom_index, _ => closest_atom_index
  | atom :: rest, i, closest_atom_index, best_d =>
    let d := calculateDistance atom data
    if closest_atom_index = -1 ∨ d < best_d then
      findClosestAux data rest (i + 1) (i : ℤ) d
    else
      findClosestAux data rest (i + 1) closest_atom_index best_d

/-- `HapticDeviceManager::findClosestAtomIndex` (openhaptics.cpp:63-77):
index of the closest atom, or −1 for an empty molecule. -/
noncomputable def findClosestAtomIndex (molecule : List AtomData)
    (data : HapticData) : ℤ :=
  findClosestAux data molecule 0 (-1) (-1)

/-- `hduVecMagnitude` of a rational 3-vector. -/
noncomputable def vecMagnitude (v : Vec3) : ℝ :=
  Real.sqrt ((v.x * v.x + v.y * v.y + v.z * v.z : ℚ) : ℝ)

/-- `hduVecMagnitude` of a real 3-vector. -/
noncomputable def rvecMagnitude (v : RVec3) : ℝ :=
  Real.sqrt (v.x * v.x + v.y * v.y + v.z * v.z)

open Classical in
/-- `HapticDeviceManager::scaleForce` (openhaptics.cpp:79-90): scale the
force by `anchor_stiffness`; if the magnitude then exceeds the device's
nominal continuous-force ceiling (`force_clamp`, read from
`HD_NOMINAL_MAX_CONTINUOUS_FORCE`), normalize and rescale to the ceiling. -/
noncomputable def scaleForce (force : Vec3) (anchor_stiffness : ℚ)
    (force_clamp : ℚ) : RVec3 :=
  let f : Vec3 := ⟨anchor_stiffness * force.x, anchor_stiffness * force.y,
                   anchor_stiffness * force.z⟩
  if vecMagnitude f > (force_clamp : ℝ) then
    ⟨(f.x : ℝ) / vecMagnitude f * (force_clamp : ℝ),
     (f.y : ℝ) / vecMagnitude f * (force_clamp : ℝ),
     (f.z : ℝ) / vecMagnitude f * (force_clamp : ℝ)⟩
  else
    ⟨(f.x : ℝ), (f.y : ℝ), (f.z : ℝ)⟩

/-- `HapticDeviceManager::setForce` (openhaptics.cpp:92-107): the force
value written to `HD_CURRENT_FORCE`.  The flags are the manager's
`calc_gradient_in_loop` and `second_button_down` members. -/
noncomputable def setForce (position atom_pos atom_gradient : Vec3)
    (calc_gradient_in_loop second_button_down : Bool)
    (force_clamp : ℚ) : RVec3 :=
  if calc_gradient_in_loop && second_button_down then
    let new_pos : Vec3 := ⟨atom_pos.x - atom_gradient.x,
                           atom_pos.y - atom_gradient.y,
                           atom_pos.z - atom_gradient.z⟩
    let force : Vec3 := ⟨new_pos.x - atom_pos.x, new_pos.y - atom_pos.y,
                         new_pos.z - atom_pos.z⟩
    scaleForce force 0.8 force_clamp
  else
    ⟨0, 0, 0⟩

/-- `HapticDeviceManager::calculateAzimuth` (openhaptics.cpp:109-112). -/
def calculateAzimuth (position last_position : Vec3) : ℚ :=
  last_position.x - position.x

/-- `HapticDeviceManager::calculateElevation` (openhaptics.cpp:114-117). -/
def calculateElevation (position last_position : Vec3) : ℚ :=
  last_position.y - position.y

/-- `HapticDeviceManager::calculateZoom` (openhaptics.cpp:119-128). -/
def calculateZoom (position last_position : Vec3) : ℚ :=
  if last_position.z - position.z ≤ -1.2 then 0.90
  else if last_position.z - position.z ≥ 1.2 then 1.10
  else 1

/-- `HD_DEVICE_BUTTON_1` from the HD API: bit 0 of the button bitmask. -/
def HD_DEVICE_BUTTON_1 : ℕ := 1

/-- `HD_DEVICE_BUTTON_2` from the HD API: bit 1 of the button bitmask. -/
def HD_DEVICE_BUTTON_2 : ℕ := 2

/-- `HD_INVALID_HANDLE` sentinel for device / scheduler handles. -/
def HD_INVALID_HANDLE : ℤ := -1

/-- One notification delivered to a `HapticCallback` (haptic_callback.h). -/
inductive CallbackEvent where
  | move (data : HapticData) (azimuth elevation zoom : ℚ)
  | first_button_down
  | first_button_up
  | second_button_down (atom_index : ℤ)
  | second_button_up
deriving DecidableEq

/-- Is this a `move` notification? -/
def CallbackEvent.isMove : CallbackEvent → Bool
  | .move _ _ _ _ => true
  | _ => false

/-- Is this a `second_button_down` notification? -/
def CallbackEvent.isSecondDown : CallbackEvent → Bool
  | .second_button_down _ => true
  | _ => false

/-- The mutable fields of `HapticDeviceManager` (openhaptics.h:16-38).
Field defaults are the in-class initializers; `last_send_data` and
`last_event_timestamp` are default-constructed (zero).  Registered
callbacks are modelled by opaque handles (natural numbers); the two
booleans `scheduler_running` / `callback_scheduled` model the state of the
external HD scheduler that `hdStartScheduler` / `hdStopScheduler` /
`hdScheduleAsynchronous` / `hdUnschedule` manipulate. -/
structure HapticDeviceManager where
  ghHD : ℤ := HD_INVALID_HANDLE
  hUpdateDeviceCallback : ℤ := HD_INVALID_HANDLE
  scale_factor : ℤ := 10
  calc_gradient_in_loop : Bool := false
  first_button_down : Bool := false
  second_button_down : Bool := false
  call_first_time : Bool := true
  last_send_data : Vec3 := ⟨0, 0, 0⟩
  transformation_matrix : Mat4 := 1
  invert_matrix : Mat4 := 1
  gradient : List (List ℚ) := []
  callbacks : List ℕ := []
  molecule : List AtomData := []
  last_event_timestamp : ℤ := 0
  scheduler_running : Bool := false
  callback_scheduled : Bool := false

/-- A freshly constructed manager (all in-class initializers). -/
def initialManager : HapticDeviceManager := {}

/-- The per-tick hardware reads of `updateDeviceCallback`:
`HD_CURRENT_POSITION`, `HD_LAST_POSITION`, `HD_CURRENT_BUTTONS`,
`HD_LAST_BUTTONS`, the steady clock (microseconds) and the device force
ceiling. -/
structure TickInput where
  current_position : Vec3
  last_position : Vec3
  current_buttons : ℕ
  last_buttons : ℕ
  now : ℤ
  force_clamp : ℚ

/-- Result of one tick: the updated manager, the notifications delivered
(in order, one entry `(handle, event)` per registered callback per
notification loop), and the force written to `HD_CURRENT_FORCE` (none when
the molecule is empty and `setForce` is never reached). -/
structure TickResult where
  state : HapticDeviceManager
  events : List (ℕ × CallbackEvent)
  force : Option RVec3

/-- Notify every registered callback, in registration order. -/
def notifyAll (callbacks : List ℕ) (ev : CallbackEvent) :
    List (ℕ × CallbackEvent) :=
  callbacks.map (fun c => (c, ev))

/-- One `for (auto* callback : p_this->callbacks)` block of the button
edge-detection code: each iteration assigns `v` to the flag and notifies
the callback.  With no registered callbacks the body never runs and the
flag keeps its value. -/
def loopSetAndNotify (callbacks : List ℕ) (v : Bool) (ev : CallbackEvent)
    (flag : Bool) : Bool × List (ℕ × CallbackEvent) :=
  callbacks.foldl (fun acc c => (v, acc.2 ++ [(c, ev)])) (flag, [])

/-- Button edge detection (openhaptics.cpp:212-236): the four transition
blocks run in sequence; `fb` / `sb` are the manager's `first_button_down` /
`second_button_down` flags before the tick.  Returns the two updated flags
and the notifications in program order. -/
def buttonPhase (callbacks : List ℕ) (current_buttons last_buttons : ℕ)
    (selected_atom_id : ℤ) (fb sb : Bool) :
    Bool × Bool × List (ℕ × CallbackEvent) :=
  let r1 :=
    if current_buttons &&& HD_DEVICE_BUTTON_1 ≠ 0 ∧
       last_buttons &&& HD_DEVICE_BUTTON_1 = 0 then
      loopSetAndNotify callbacks true .first_button_down fb
    else (fb, [])
  let r2 :=
    if current_buttons &&& HD_DEVICE_BUTTON_1 ≠ 1 ∧
       last_buttons &&& HD_DEVICE_BUTTON_1 = 1 then
      loopSetAndNotify callbacks false .first_button_up r1.1
    else (r1.1, [])
  let r3 :=
    if current_buttons &&& HD_DEVICE_BUTTON_2 ≠ 0 ∧
       last_buttons &&& HD_DEVICE_BUTTON_2 = 0 then
      loopSetAndNotify callbacks true (.second_button_down selected_atom_id) sb
    else (sb, [])
  let r4 :=
    if current_buttons &&& HD_DEVICE_BUTTON_2 ≠ 2 ∧
       last_buttons &&& HD_DEVICE_BUTTON_2 = 2 then
      loopSetAndNotify callbacks false .second_button_up r3.1
    else (r3.1, [])
  (r2.1, r4.1, r1.2 ++ r2.2 ++ r3.2 ++ r4.2)

open Classical in
/-- Selection and force write (openhaptics.cpp:183-210).  Returns
`selected_atom_id` and the force written by `setForce` (none when the
molecule is empty).  `molecule[closest_atom_index]` is modelled with a
default lookup; the index is in bounds whenever the molecule is non-empty.
The comparison `selected_atom_id < gradients.size()` converts the `int` id
to `size_t`, so a negative id fails it; this is modelled by the conjunction
with `0 ≤ selected_atom_id`. -/
noncomputable def forcePhase (p : HapticDeviceManager)
    (current_position : Vec3) (data : HapticData) (force_clamp : ℚ) :
    ℤ × Option RVec3 :=
  if p.molecule = [] then (-1, none)
  else
    let closest_atom_index := findClosestAtomIndex p.molecule data
    let closest_atom := p.molecule.getD closest_atom_index.toNat default
    let sel :=
      if calculateDistance closest_atom data ≤
          3 * ((closest_atom.getDistance : ℚ) : ℝ) then
        let selected_atom_id := closest_atom.getId
        if 0 ≤ selected_atom_id ∧
           selected_atom_id < (p.gradient.length : ℤ) then
          (selected_atom_id, p.gradient.getD selected_atom_id.toNat [0, 0, 0])
        else (selected_atom_id, ([0, 0, 0] : List ℚ))
      else ((-1 : ℤ), ([0, 0, 0] : List ℚ))
    let transformed_atom := transformToHapticCoordinates closest_atom.getPosX
      closest_atom.getPosY closest_atom.getPosZ p.invert_matrix p.scale_factor
    let g := sel.2
    let transformed_gradient := transformToHapticCoordinates (g.getD 0 0)
      (g.getD 1 0) (g.getD 2 0) p.invert_matrix p.scale_factor
    (sel.1, some (setForce current_position transformed_atom
      transformed_gradient p.calc_gradient_in_loop p.second_button_down
      force_clamp))

/-- `kMaxEventsPerSecond` (openhaptics.cpp:241). -/
def kMaxEventsPerSecond : ℤ := 60

/-- `kMinDelay = microseconds(1000000) / kMaxEventsPerSecond`
(openhaptics.cpp:242); `std::chrono` duration division truncates, so this
is 16666 microseconds. -/
def kMinDelay : ℤ := 1000000 / kMaxEventsPerSecond

/-- Move-event throttling and emission (openhaptics.cpp:240-273).  `data`
is the pointer sample already transformed to application coordinates at
line 181.  If less than `kMinDelay` has elapsed since
`last_event_timestamp`, the tick returns without touching the session
state; otherwise the timestamp is refreshed, `last_send_data` is seeded on
the very first pass, the move notification fires when the application
coordinates differ from those of `last_send_data`, and `last_send_data` is
set to the current position regardless. -/
def movePhase (p : HapticDeviceManager) (now : ℤ)
    (current_position last_position : Vec3) (data : HapticData) :
    HapticDeviceManager × List (ℕ × CallbackEvent) :=
  if now - p.last_event_timestamp < kMinDelay then (p, [])
  else
    let p1 := { p with last_event_timestamp := now }
    let p2 := if p1.call_first_time then
        { p1 with call_first_time := false, last_send_data := last_position }
      else p1
    let last_data := transformToAppCoordinates p2.last_send_data
      p2.transformation_matrix p2.scale_factor
    let azimuth := calculateAzimuth current_position p2.last_send_data
    let elevation := calculateElevation current_position p2.last_send_data
    let zoom := calculateZoom current_position p2.last_send_data
    let events :=
      if data.getPosX ≠ last_data.getPosX ∨
         data.getPosY ≠ last_data.getPosY ∨
         data.getPosZ ≠ last_data.getPosZ then
        notifyAll p2.callbacks (.move data azimuth elevation zoom)
      else []
    ({ p2 with last_send_data := current_position }, events)

/-- `HapticDeviceManager::updateDeviceCallback` (openhaptics.cpp:133-274):
one tick of the device servicing loop.  The thread-safe snapshot copies
are the manager's own fields (the model is single-threaded); the fatal
`hdGetError` path is not modelled. -/
noncomputable def updateDeviceCallback (p : HapticDeviceManager)
    (inp : TickInput) : TickResult :=
  let data := transformToAppCoordinates inp.current_position
    p.transformation_matrix p.scale_factor
  let fr := forcePhase p inp.current_position data inp.force_clamp
  let bp := buttonPhase p.callbacks inp.current_buttons inp.last_buttons
    fr.1 p.first_button_down p.second_button_down
  let p1 := { p with first_button_down := bp.1, second_button_down := bp.2.1 }
  let mp := movePhase p1 inp.now inp.current_position inp.last_position data
  { state := mp.1, events := bp.2.2 ++ mp.2, force := fr.2 }

/-- Iterate the servicing loop over a list of tick inputs, collecting the
force written on each tick. -/
noncomputable def runTicks (p : HapticDeviceManager) :
    List TickInput → HapticDeviceManager × List (Option RVec3)
  | [] => (p, [])
  | inp :: rest =>
    let r := updateDeviceCallback p inp
    let rs := runTicks r.state rest
    (rs.1, r.force :: rs.2)

/-- Iterate only the button edge-detection phase over a list of
`(current_buttons, last_buttons)` pairs, collecting all notifications. -/
def runButtonTicks (callbacks : List ℕ) (selected_atom_id : ℤ) :
    List (ℕ × ℕ) → Bool → Bool → Bool × Bool × List (ℕ × CallbackEvent)
  | [], fb, sb => (fb, sb, [])
  | (cur, last) :: rest, fb, sb =>
    let r := buttonPhase callbacks cur last selected_atom_id fb sb
    let rs := runButtonTicks callbacks selected_atom_id rest r.1 r.2.1
    (rs.1, rs.2.1, r.2.2 ++ rs.2.2)

/-- `HapticDeviceManager::add_haptic_callback` (openhaptics.cpp:307-309). -/
def add_haptic_callback (p : HapticDeviceManager) (callback : ℕ) :
    HapticDeviceManager :=
  { p with callbacks := p.callbacks ++ [callback] }

/-- The element-writing loop of `update_gradient` (openhaptics.cpp:350-354):
write each flat value to `gradient[index / 3][index % 3]`.  A write whose
row index is out of the table's bounds is undefined behaviour in the C++
and is modelled as `none`; the column index is always `index % 3 < 3`, the
length of every row the class ever builds. -/
def writeGradientCells : List ℚ → ℕ → List (List ℚ) → Option (List (List ℚ))
  | [], _, t => some t
  | v :: rest, index, t =>
    if h : index / 3 < t.length then
      writeGradientCells rest (index + 1)
        (t.set (index / 3) ((t.getD (index / 3) []).set (index % 3) v))
    else
      none

/-- `HapticDeviceManager::update_gradient` (openhaptics.cpp:343-355) as a
transform of the gradient table: grow the table to
`gradient_list.size() / 3` rows of `vector<double>(3)` (three zeros), then
write every flat value into `gradient[index / 3][index % 3]`. -/
def update_gradient (gradient_list : List ℚ) (gradient : List (List ℚ)) :
    Option (List (List ℚ)) :=
  let grown := gradient ++
    List.replicate (gradient_list.length / 3 - gradient.length)
      (List.replicate 3 (0 : ℚ))
  writeGradientCells gradient_list 0 grown

/-- The `count / 3` consecutive 3-vectors of a flat value list. -/
def chunk3 : List ℚ → List (List ℚ)
  | a :: b :: c :: rest => [a, b, c] :: chunk3 rest
  | _ => []

/-- `HapticDeviceManager::exit_haptic_device` (openhaptics.cpp:381-390):
stop the scheduler, unschedule the servicing callback, and disable the
device handle if it is open.  No other field is touched. -/
def exit_haptic_device (p : HapticDeviceManager) : HapticDeviceManager :=
  let p1 := { p with scheduler_running := false, callback_scheduled := false }
  if p1.ghHD ≠ HD_INVALID_HANDLE then { p1 with ghHD := HD_INVALID_HANDLE }
  else p1

/-- A concrete tick input (no buttons) used by concrete instantiations. -/
def tick0 : TickInput :=
  { current_position := ⟨1, 0, 0⟩, last_position := ⟨0, 0, 0⟩,
    current_buttons := 0, last_buttons := 0, now := 20000, force_clamp := 1 }

/-- A concrete tick input with a rising edge of button 2. -/
def tick2 : TickInput :=
  { current_position := ⟨1, 0, 0⟩, last_position := ⟨0, 0, 0⟩,
    current_buttons := 2, last_buttons := 0, now := 20000, force_clamp := 1 }

/-- A concrete tick input arriving 100 microseconds after device start. -/
def tickEarly : TickInput :=
  { current_position := ⟨1, 0, 0⟩, last_position := ⟨0, 0, 0⟩,
    current_buttons := 0, last_buttons := 0, now := 100, force_clamp := 1 }

/-- A manager that has already completed its first servicing tick. -/
def mgrStarted : HapticDeviceManager :=
  { initialManager with call_first_time := false }

/-- A concrete atom with id 7 at position (3,0,0), radius 1: its distance
to the origin is exactly 3 = 3 × radius. -/
def atomB : AtomData := ⟨7, 3, 0, 0, 1⟩

/-- The pointer sample at the origin of application coordinates. -/
def dataOrigin : HapticData := ⟨0, 0, 0⟩

/-- A manager whose molecule holds the single atom `atomB`. -/
def mgrAtom : HapticDeviceManager := { initialManager with molecule := [atomB] }

/-- An invertible but non-affine 4×4 matrix (it swaps the third and fourth
coordinates, so its last row is not `(0, 0, 0, 1)`); it is its own inverse. -/
def permMat : Mat4 :=
  Matrix.of ![![1, 0, 0, 0], ![0, 1, 0, 0], ![0, 0, 0, 1], ![0, 0, 1, 0]]

/-! ### Helper lemmas -/

theorem loopSetAndNotify_aux (v : Bool) (ev : CallbackEvent) :
    ∀ (cbs : List ℕ) (flag : Bool) (acc : List (ℕ × CallbackEvent)),
      cbs.foldl (fun acc c => (v, acc.2 ++ [(c, ev)])) (flag, acc) =
        (if cbs = [] then flag else v, acc ++ cbs.map (fun c => (c, ev)))
  | [], flag, acc => by simp
  | c :: cbs, flag, acc => by
    simp only [List.foldl_cons, loopSetAndNotify_aux v ev cbs v (acc ++ [(c, ev)])]
    simp

theorem loopSetAndNotify_eq (cbs : List ℕ) (v : Bool) (ev : CallbackEvent)
    (flag : Bool) :
    loopSetAndNotify cbs v ev flag =
      (if cbs = [] then flag else v, notifyAll cbs ev) := by
  simpa [loopSetAndNotify, notifyAll] using loopSetAndNotify_aux v ev cbs flag []

theorem buttonPhase_nil (cur last : ℕ) (sel : ℤ) (fb sb : Bool) :
    buttonPhase [] cur last sel fb sb = (fb, sb, []) := by
  simp [buttonPhase, loopSetAndNotify_eq, notifyAll]

theorem setForce_second_up (position atom_pos atom_gradient : Vec3) (g : Bool)
    (force_clamp : ℚ) :
    setForce position atom_pos atom_gradient g false force_clamp = ⟨0, 0, 0⟩ := by
  simp [setForce]

theorem movePhase_preserves (p : HapticDeviceManager) (now : ℤ)
    (current_position last_position : Vec3) (data : HapticData) :
    (movePhase p now current_position last_position data).1.callbacks = p.callbacks ∧
    (movePhase p now current_position last_position data).1.first_button_down = p.first_button_down ∧
    (movePhase p now current_position last_position data).1.second_button_down = p.second_button_down ∧
    (movePhase p now current_position last_position data).1.molecule = p.molecule ∧
    (movePhase p now current_position last_position data).1.calc_gradient_in_loop = p.calc_gradient_in_loop := by
  by_cases h0 : now - p.last_event_timestamp < kMinDelay
  · simp [movePhase, h0]
  · by_cases h1 : p.call_first_time <;> simp [movePhase, h0, h1]

theorem updateDeviceCallback_force (p : HapticDeviceManager) (inp : TickInput) :
    (updateDeviceCallback p inp).force =
      (forcePhase p inp.current_position
        (transformToAppCoordinates inp.current_position p.transformation_matrix
          p.scale_factor) inp.force_clamp).2 := rfl

theorem updateDeviceCallback_events (p : HapticDeviceManager) (inp : TickInput) :
    (updateDeviceCallback p inp).events =
      (buttonPhase p.callbacks inp.current_buttons inp.last_buttons
        (forcePhase p inp.current_position
          (transformToAppCoordinates inp.current_position p.transformation_matrix
            p.scale_factor) inp.force_clamp).1
        p.first_button_down p.second_button_down).2.2 ++
      (movePhase
        { p with
          first_button_down :=
            (buttonPhase p.callbacks inp.current_buttons inp.last_buttons
              (forcePhase p inp.current_position
                (transformToAppCoordinates inp.current_position
                  p.transformation_matrix p.scale_factor) inp.force_clamp).1
              p.first_button_down p.second_button_down).1,
          second_button_down :=
            (buttonPhase p.callbacks inp.current_buttons inp.last_buttons
              (forcePhase p inp.current_position
                (transformToAppCoordinates inp.current_position
                  p.transformation_matrix p.scale_factor) inp.force_clamp).1
              p.first_button_down p.second_button_down).2.1 }
        inp.now inp.current_position inp.last_position
        (transformToAppCoordinates inp.current_position p.transformation_matrix
          p.scale_factor)).2 := rfl

theorem updateDeviceCallback_state (p : HapticDeviceManager) (inp : TickInput) :
    (updateDeviceCallback p inp).state =
      (movePhase
        { p with
          first_button_down :=
            (buttonPhase p.callbacks inp.current_buttons inp.last_buttons
              (forcePhase p inp.current_position
                (transformToAppCoordinates inp.current_position
                  p.transformation_matrix p.scale_factor) inp.force_clamp).1
              p.first_button_down p.second_button_down).1,
          second_button_down :=
            (buttonPhase p.callbacks inp.current_buttons inp.last_buttons
              (forcePhase p inp.current_position
                (transformToAppCoordinates inp.current_position
                  p.transformation_matrix p.scale_factor) inp.force_clamp).1
              p.first_button_down p.second_button_down).2.1 }
        inp.now inp.current_position inp.last_position
        (transformToAppCoordinates inp.current_position p.transformation_matrix
          p.scale_factor)).1 := rfl

theorem forcePhase_second_up (p : HapticDeviceManager) (current_position : Vec3)
    (data : HapticData) (force_clamp : ℚ) (h2 : p.second_button_down = false) :
    (forcePhase p current_position data force_clamp).2 = none ∨
    (forcePhase p current_position data force_clamp).2 = some ⟨0, 0, 0⟩ := by
  unfold forcePhase
  split
  · exact Or.inl rfl
  · right
    rw [h2]
    simp only [setForce_second_up]

theorem updateDeviceCallback_idle_step (p : HapticDeviceManager)
    (inp : TickInput) (hc : p.callbacks = []) (h1 : p.first_button_down = false)
    (h2 : p.second_button_down = false) :
    (updateDeviceCallback p inp).state.callbacks = [] ∧
    (updateDeviceCallback p inp).state.first_button_down = false ∧
    (updateDeviceCallback p inp).state.second_button_down = false ∧
    ((updateDeviceCallback p inp).force = none ∨
      (updateDeviceCallback p inp).force = some ⟨0, 0, 0⟩) := by
  rw [updateDeviceCallback_state, updateDeviceCallback_force]
  rw [hc, buttonPhase_nil, h1, h2]
  refine ⟨?_, ?_, ?_, forcePhase_second_up p _ _ _ h2⟩
  · exact (movePhase_preserves _ _ _ _ _).1
  · exact (movePhase_preserves _ _ _ _ _).2.1
  · exact (movePhase_preserves _ _ _ _ _).2.2.1

theorem filter_notifyAll (pr : CallbackEvent → Bool) (cbs : List ℕ)
    (ev : CallbackEvent) :
    (notifyAll cbs ev).filter (fun e => pr e.2) =
      if pr ev then notifyAll cbs ev else [] := by
  cases h : pr ev <;>
    induction cbs with
    | nil => simp [notifyAll]
    | cons c cbs ih => simpa [notifyAll, List.filter, h] using ih

theorem buttonPhase_events (cbs : List ℕ) (cur last : ℕ) (sel : ℤ)
    (fb sb : Bool) :
    (buttonPhase cbs cur last sel fb sb).2.2 =
      (if cur &&& HD_DEVICE_BUTTON_1 ≠ 0 ∧ last &&& HD_DEVICE_BUTTON_1 = 0 then
        notifyAll cbs .first_button_down else []) ++
      (if cur &&& HD_DEVICE_BUTTON_1 ≠ 1 ∧ last &&& HD_DEVICE_BUTTON_1 = 1 then
        notifyAll cbs .first_button_up else []) ++
      (if cur &&& HD_DEVICE_BUTTON_2 ≠ 0 ∧ last &&& HD_DEVICE_BUTTON_2 = 0 then
        notifyAll cbs (.second_button_down sel) else []) ++
      (if cur &&& HD_DEVICE_BUTTON_2 ≠ 2 ∧ last &&& HD_DEVICE_BUTTON_2 = 2 then
        notifyAll cbs .second_button_up else []) := by
  by_cases c1 : cur &&& HD_DEVICE_BUTTON_1 ≠ 0 ∧ last &&& HD_DEVICE_BUTTON_1 = 0 <;>
  by_cases c2 : cur &&& HD_DEVICE_BUTTON_1 ≠ 1 ∧ last &&& HD_DEVICE_BUTTON_1 = 1 <;>
  by_cases c3 : cur &&& HD_DEVICE_BUTTON_2 ≠ 0 ∧ last &&& HD_DEVICE_BUTTON_2 = 0 <;>
  by_cases c4 : cur &&& HD_DEVICE_BUTTON_2 ≠ 2 ∧ last &&& HD_DEVICE_BUTTON_2 = 2 <;>
  simp [buttonPhase, loopSetAndNotify_eq, c1, c2, c3, c4]

theorem movePhase_events_cases (p : HapticDeviceManager) (now : ℤ)
    (current_position last_position : Vec3) (data : HapticData) :
    (movePhase p now current_position last_position data).2 = [] ∨
    ∃ az el zo, (movePhase p now current_position last_position data).2 =
      notifyAll p.callbacks (.move data az el zo) := by
  by_cases h0 : now - p.last_event_timestamp < kMinDelay
  · exact Or.inl (by simp [movePhase, h0])
  · by_cases h1 : p.call_first_time
    · by_cases hd : data.getPosX ≠ (transformToAppCoordinates last_position
          p.transformation_matrix p.scale_factor).getPosX ∨
        data.getPosY ≠ (transformToAppCoordinates last_position
          p.transformation_matrix p.scale_factor).getPosY ∨
        data.getPosZ ≠ (transformToAppCoordinates last_position
          p.transformation_matrix p.scale_factor).getPosZ
      · exact Or.inr ⟨calculateAzimuth current_position last_position,
          calculateElevation current_position last_position,
          calculateZoom current_position last_position,
          by simp [movePhase, h0, h1, hd]⟩
      · exact Or.inl (by simp [movePhase, h0, h1, hd])
    · by_cases hd : data.getPosX ≠ (transformToAppCoordinates p.last_send_data
          p.transformation_matrix p.scale_factor).getPosX ∨
        data.getPosY ≠ (transformToAppCoordinates p.last_send_data
          p.transformation_matrix p.scale_factor).getPosY ∨
        data.getPosZ ≠ (transformToAppCoordinates p.last_send_data
          p.transformation_matrix p.scale_factor).getPosZ
      · exact Or.inr ⟨calculateAzimuth current_position p.last_send_data,
          calculateElevation current_position p.last_send_data,
          calculateZoom current_position p.last_send_data,
          by simp [movePhase, h0, h1, hd]⟩
      · exact Or.inl (by simp [movePhase, h0, h1, hd])

theorem movePhase_filter_secondDown (p : HapticDeviceManager) (now : ℤ)
    (current_position last_position : Vec3) (data : HapticData) :
    (movePhase p now current_position last_position data).2.filter
      (fun e => e.2.isSecondDown) = [] := by
  rcases movePhase_events_cases p now current_position last_position data with
    h | ⟨az, el, zo, h⟩
  · simp [h]
  · rw [h, filter_notifyAll]
    simp [CallbackEvent.isSecondDown]

theorem movePhase_filter_isMove (p : HapticDeviceManager) (now : ℤ)
    (current_position last_position : Vec3) (data : HapticData) :
    (movePhase p now current_position last_position data).2.filter
      (fun e => e.2.isMove) =
      (movePhase p now current_position last_position data).2 := by
  rcases movePhase_events_cases p now current_position last_position data with
    h | ⟨az, el, zo, h⟩
  · simp [h]
  · rw [h, filter_notifyAll]
    simp [CallbackEvent.isMove]

theorem buttonPhase_filter_isMove (cbs : List ℕ) (cur last : ℕ) (sel : ℤ)
    (fb sb : Bool) :
    (buttonPhase cbs cur last sel fb sb).2.2.filter (fun e => e.2.isMove) = [] := by
  rw [buttonPhase_events]
  simp only [List.filter_append,
    apply_ite (List.filter (fun (e : ℕ × CallbackEvent) => e.2.isMove)),
    filter_notifyAll]
  simp [CallbackEvent.isMove]

theorem buttonPhase_filter_secondDown (cbs : List ℕ) (cur last : ℕ) (sel : ℤ)
    (fb sb : Bool) (hc : cur &&& HD_DEVICE_BUTTON_2 ≠ 0)
    (hl : last &&& HD_DEVICE_BUTTON_2 = 0) :
    (buttonPhase cbs cur last sel fb sb).2.2.filter
      (fun e => e.2.isSecondDown) = notifyAll cbs (.second_button_down sel) := by
  rw [buttonPhase_events]
  simp only [List.filter_append,
    apply_ite (List.filter (fun (e : ℕ × CallbackEvent) => e.2.isSecondDown)),
    filter_notifyAll]
  simp [CallbackEvent.isSecondDown, hc, hl]

/-! ### C8 -/

/-- C8 counterexample: `exit_haptic_device` does not reset the loop session
state.  A manager whose `second_button_down` flag is true and whose
first-tick flag has been cleared keeps those values across
`exit_haptic_device`, while the initial (constructed) values are `false`
and `true` respectively. -/
theorem exit_haptic_device_no_session_reset :
    (exit_haptic_device { initialManager with
      second_button_down := true
      call_first_time := false }).second_button_down = true ∧
    (exit_haptic_device { initialManager with
      second_button_down := true
      call_first_time := false }).call_first_time = false ∧
    initialManager.second_button_down = false ∧
    initialManager.call_first_time = true := by
  refine ⟨?_, ?_, rfl, rfl⟩ <;>
    simp [exit_haptic_device, initialManager, HD_INVALID_HANDLE]

/-- C8 (amended): `exit_haptic_device` stops the scheduler, unschedules the
servicing callback and invalidates the device handle, and leaves the loop
session state — the two button flags, the first-tick flag, the last-emitted
device-native position and the last-emit timestamp — unchanged (it is
initialized at construction, not reset on device stop). -/
theorem exit_haptic_device_spec (p : HapticDeviceManager) :
    (exit_haptic_device p).first_button_down = p.first_button_down ∧
    (exit_haptic_device p).second_button_down = p.second_button_down ∧
    (exit_haptic_device p).call_first_time = p.call_first_time ∧
    (exit_haptic_device p).last_send_data = p.last_send_data ∧
    (exit_haptic_device p).last_event_timestamp = p.last_event_timestamp ∧
    (exit_haptic_device p).ghHD = HD_INVALID_HANDLE ∧
    (exit_haptic_device p).scheduler_running = false ∧
    (exit_haptic_device p).callback_scheduled = false := by
  by_cases h : p.ghHD = HD_INVALID_HANDLE <;>
    simp [exit_haptic_device, h]

/-! ### C10 -/

/-- C10: the `first_button_down` / `second_button_down` flags are only ever
assigned inside the iteration over registered listeners, so with an empty
listener set both flags stay `false` over any sequence of ticks, the
guidance branch of `setForce` is never taken, and every force the loop
writes is the zero vector. -/
theorem empty_callbacks_flags_stay_false_force_zero :
    ∀ (inps : List TickInput) (p : HapticDeviceManager),
      p.callbacks = [] → p.first_button_down = false →
      p.second_button_down = false →
      (runTicks p inps).1.first_button_down = false ∧
      (runTicks p inps).1.second_button_down = false ∧
      ∀ f ∈ (runTicks p inps).2, f = none ∨ f = some ⟨0, 0, 0⟩
  | [], p, hc, h1, h2 => by
    refine ⟨h1, h2, ?_⟩
    intro f hf
    simp [runTicks] at hf
  | inp :: rest, p, hc, h1, h2 => by
    have step := updateDeviceCallback_idle_step p inp hc h1 h2
    have ih := empty_callbacks_flags_stay_false_force_zero rest
      (updateDeviceCallback p inp).state step.1 step.2.1 step.2.2.1
    refine ⟨ih.1, ih.2.1, ?_⟩
    intro f hf
    have hmem : f = (updateDeviceCallback p inp).force ∨
        f ∈ (runTicks (updateDeviceCallback p inp).state rest).2 := by
      simpa [runTicks] using hf
    rcases hmem with hf' | hf'
    · rw [hf']
      exact step.2.2.2
    · exact ih.2.2 f hf'

/-- C10 witness: a concrete manager with no registered callbacks, run for
one tick. -/
theorem empty_callbacks_flags_stay_false_force_zero_witness :
    (initialManager.callbacks = [] ∧ initialManager.first_button_down = false ∧
      initialManager.second_button_down = false) ∧
    ((runTicks initialManager [tick0]).1.first_button_down = false ∧
     (runTicks initialManager [tick0]).1.second_button_down = false ∧
     ∀ f ∈ (runTicks initialManager [tick0]).2, f = none ∨ f = some ⟨0, 0, 0⟩) :=
  ⟨⟨rfl, rfl, rfl⟩,
   empty_callbacks_flags_stay_false_force_zero [tick0] initialManager rfl rfl rfl⟩

/-! ### C4 -/

/-- C4: across four ticks whose button-1 bitmask values are `[0, 1, 1, 0]`
(each tick comparing current against the previous tick's bitmask), every
registered listener receives exactly one `first_button_down` (rising edge)
followed by exactly one `first_button_up` (falling edge) and nothing on the
steady-state ticks; the same edge rule holds for button 2 (bitmask values
`[0, 2, 2, 0]`), and in a full servicing tick the rising-edge button-2
notification carries the tick's selected atom id (the first component of
`forcePhase`, which is −1 when no atom is selected). -/
theorem button_edge_sequences (cbs : List ℕ) (sel : ℤ) (fb sb : Bool) :
    ((runButtonTicks cbs sel [(0, 0), (1, 0), (1, 1), (0, 1)] fb sb).2.2 =
      notifyAll cbs .first_button_down ++ notifyAll cbs .first_button_up) ∧
    ((runButtonTicks cbs sel [(0, 0), (2, 0), (2, 2), (0, 2)] fb sb).2.2 =
      notifyAll cbs (.second_button_down sel) ++ notifyAll cbs .second_button_up) ∧
    (∀ (p : HapticDeviceManager) (inp : TickInput),
      inp.current_buttons &&& HD_DEVICE_BUTTON_2 ≠ 0 →
      inp.last_buttons &&& HD_DEVICE_BUTTON_2 = 0 →
      (updateDeviceCallback p inp).events.filter (fun e => e.2.isSecondDown) =
        notifyAll p.callbacks (.second_button_down
          (forcePhase p inp.current_position
            (transformToAppCoordinates inp.current_position
              p.transformation_matrix p.scale_factor) inp.force_clamp).1)) := by
  refine ⟨?_, ?_, ?_⟩
  · simp [runButtonTicks, buttonPhase_events, HD_DEVICE_BUTTON_1,
      HD_DEVICE_BUTTON_2]
  · simp [runButtonTicks, buttonPhase_events, HD_DEVICE_BUTTON_1,
      HD_DEVICE_BUTTON_2]
  · intro p inp hc hl
    rw [updateDeviceCallback_events, List.filter_append,
      buttonPhase_filter_secondDown _ _ _ _ _ _ hc hl,
      movePhase_filter_secondDown]
    simp

/-- C4 witness: a single listener, the concrete button sequences, and a
concrete tick with a rising button-2 edge on a fresh manager. -/
theorem button_edge_sequences_witness :
    ((runButtonTicks [5] 3 [(0, 0), (1, 0), (1, 1), (0, 1)] false false).2.2 =
      notifyAll [5] .first_button_down ++ notifyAll [5] .first_button_up) ∧
    (tick2.current_buttons &&& HD_DEVICE_BUTTON_2 ≠ 0 ∧
     tick2.last_buttons &&& HD_DEVICE_BUTTON_2 = 0) ∧
    (updateDeviceCallback initialManager tick2).events.filter
        (fun e => e.2.isSecondDown) =
      notifyAll initialManager.callbacks (.second_button_down
        (forcePhase initialManager tick2.current_position
          (transformToAppCoordinates tick2.current_position
            initialManager.transformation_matrix initialManager.scale_factor)
          tick2.force_clamp).1) :=
  ⟨(button_edge_sequences [5] 3 false false).1, ⟨by decide, by decide⟩,
   (button_edge_sequences [5] 3 false false).2.2 initialManager tick2
     (by decide) (by decide)⟩

/-! ### C3 -/

theorem movePhase_throttled (p : HapticDeviceManager) (now : ℤ)
    (current_position last_position : Vec3) (data : HapticData)
    (h : now - p.last_event_timestamp < kMinDelay) :
    movePhase p now current_position last_position data = (p, []) := by
  simp [movePhase, h]

theorem movePhase_passed (p : HapticDeviceManager) (now : ℤ)
    (current_position last_position : Vec3) (data : HapticData)
    (h : ¬(now - p.last_event_timestamp < kMinDelay)) :
    (movePhase p now current_position last_position data).1.last_event_timestamp = now ∧
    (movePhase p now current_position last_position data).1.last_send_data = current_position := by
  by_cases h1 : p.call_first_time <;> simp [movePhase, h, h1]

theorem movePhase_emit (p : HapticDeviceManager) (now : ℤ)
    (current_position last_position : Vec3) (data : HapticData)
    (h : ¬(now - p.last_event_timestamp < kMinDelay))
    (hcf : p.call_first_time = false) :
    (movePhase p now current_position last_position data).2 =
      if data.getPosX ≠ (transformToAppCoordinates p.last_send_data
            p.transformation_matrix p.scale_factor).getPosX ∨
          data.getPosY ≠ (transformToAppCoordinates p.last_send_data
            p.transformation_matrix p.scale_factor).getPosY ∨
          data.getPosZ ≠ (transformToAppCoordinates p.last_send_data
            p.transformation_matrix p.scale_factor).getPosZ then
        notifyAll p.callbacks (.move data
          (calculateAzimuth current_position p.last_send_data)
          (calculateElevation current_position p.last_send_data)
          (calculateZoom current_position p.last_send_data))
      else [] := by
  simp [movePhase, h, hcf]

/-- C3: move-event throttling.  If the tick arrives less than `kMinDelay`
(`1000000/60` microseconds) after the throttle timestamp, no move
notification is emitted and the session state is untouched.  If at least
`kMinDelay` has elapsed, the throttle timestamp and the last-emitted
device-native position are updated regardless of whether the position
changed, and (past the seeding tick) exactly one move notification per
registered listener is emitted exactly when the application-coordinate
position differs, component-wise by exact inequality, from the
application-coordinate image of the previously emitted position. -/
theorem move_event_throttling (p : HapticDeviceManager) (inp : TickInput) :
    (inp.now - p.last_event_timestamp < kMinDelay →
      (updateDeviceCallback p inp).events.filter (fun e => e.2.isMove) = [] ∧
      (updateDeviceCallback p inp).state.last_event_timestamp = p.last_event_timestamp ∧
      (updateDeviceCallback p inp).state.last_send_data = p.last_send_data ∧
      (updateDeviceCallback p inp).state.call_first_time = p.call_first_time) ∧
    (¬(inp.now - p.last_event_timestamp < kMinDelay) →
      (updateDeviceCallback p inp).state.last_event_timestamp = inp.now ∧
      (updateDeviceCallback p inp).state.last_send_data = inp.current_position ∧
      (p.call_first_time = false →
        (updateDeviceCallback p inp).events.filter (fun e => e.2.isMove) =
          if (transformToAppCoordinates inp.current_position
                p.transformation_matrix p.scale_factor).getPosX ≠
              (transformToAppCoordinates p.last_send_data
                p.transformation_matrix p.scale_factor).getPosX ∨
             (transformToAppCoordinates inp.current_position
                p.transformation_matrix p.scale_factor).getPosY ≠
              (transformToAppCoordinates p.last_send_data
                p.transformation_matrix p.scale_factor).getPosY ∨
             (transformToAppCoordinates inp.current_position
                p.transformation_matrix p.scale_factor).getPosZ ≠
              (transformToAppCoordinates p.last_send_data
                p.transformation_matrix p.scale_factor).getPosZ then
            notifyAll p.callbacks (.move
              (transformToAppCoordinates inp.current_position
                p.transformation_matrix p.scale_factor)
              (calculateAzimuth inp.current_position p.last_send_data)
              (calculateElevation inp.current_position p.last_send_data)
              (calculateZoom inp.current_position p.last_send_data))
          else [])) := by
  constructor
  · intro hlt
    rw [updateDeviceCallback_events, updateDeviceCallback_state,
      List.filter_append, buttonPhase_filter_isMove, movePhase_filter_isMove]
    simp [movePhase, hlt]
  · intro hge
    rw [updateDeviceCallback_events, updateDeviceCallback_state,
      List.filter_append, buttonPhase_filter_isMove, movePhase_filter_isMove]
    refine ⟨?_, ?_, ?_⟩
    · by_cases h1 : p.call_first_time <;> simp [movePhase, hge, h1]
    · by_cases h1 : p.call_first_time <;> simp [movePhase, hge, h1]
    · intro hcf
      simp [movePhase, hge, hcf]

/-- C3 witness: a suppressed early tick on a fresh manager, and an emitting
tick on a started manager past the throttle window. -/
theorem move_event_throttling_witness :
    (tickEarly.now - initialManager.last_event_timestamp < kMinDelay ∧
      ((updateDeviceCallback initialManager tickEarly).events.filter
          (fun e => e.2.isMove) = [] ∧
        (updateDeviceCallback initialManager tickEarly).state.last_event_timestamp =
          initialManager.last_event_timestamp ∧
        (updateDeviceCallback initialManager tickEarly).state.last_send_data =
          initialManager.last_send_data ∧
        (updateDeviceCallback initialManager tickEarly).state.call_first_time =
          initialManager.call_first_time)) ∧
    (¬(tick0.now - mgrStarted.last_event_timestamp < kMinDelay) ∧
      ((updateDeviceCallback mgrStarted tick0).state.last_event_timestamp = tick0.now ∧
       (updateDeviceCallback mgrStarted tick0).state.last_send_data =
         tick0.current_position)) :=
  ⟨⟨by decide, (move_event_throttling initialManager tickEarly).1 (by decide)⟩,
   ⟨by decide,
    ⟨((move_event_throttling mgrStarted tick0).2 (by decide)).1,
     ((move_event_throttling mgrStarted tick0).2 (by decide)).2.1⟩⟩⟩

/-! ### C7 / C9: gradient table -/

theorem getD_set_self {α : Type} (l : List α) (m : ℕ) (x d : α)
    (h : m < l.length) : (l.set m x).getD m d = x := by
  simp [List.getD_eq_getElem?_getD, List.getElem?_set_self h]

theorem getD_set_ne {α : Type} (l : List α) (m j : ℕ) (x d : α) (h : m ≠ j) :
    (l.set m x).getD j d = l.getD j d := by
  simp [List.getD_eq_getElem?_getD, List.getElem?_set_ne h]

theorem take_set_succ {α : Type} (t : List α) (m : ℕ) (x : α)
    (h : m < t.length) : (t.set m x).take (m + 1) = t.take m ++ [x] := by
  rw [List.set_eq_take_append_cons_drop, if_pos h]
  have hl : (t.take m).length = m := by
    rw [List.length_take]
    omega
  calc (t.take m ++ x :: t.drop (m + 1)).take (m + 1)
      = (t.take m ++ x :: t.drop (m + 1)).take ((t.take m).length + 1) := by rw [hl]
    _ = t.take m ++ (x :: t.drop (m + 1)).take 1 := List.take_append 1
    _ = t.take m ++ [x] := by simp

theorem writeGradientCells_step (a b c : ℚ) (rest : List ℚ) (m : ℕ)
    (t : List (List ℚ)) (hm : m < t.length) (hrow : (t.getD m []).length = 3) :
    writeGradientCells (a :: b :: c :: rest) (3 * m) t =
      writeGradientCells rest (3 * (m + 1)) (t.set m [a, b, c]) := by
  obtain ⟨x, y, z, hxyz⟩ := List.length_eq_three.mp hrow
  have e0 : 3 * m / 3 = m := by omega
  have e1 : (3 * m + 1) / 3 = m := by omega
  have e2 : (3 * m + 1 + 1) / 3 = m := by omega
  have f0 : 3 * m % 3 = 0 := by omega
  have f1 : (3 * m + 1) % 3 = 1 := by omega
  have f2 : (3 * m + 1 + 1) % 3 = 2 := by omega
  simp only [writeGradientCells, e0, e1, e2, f0, f1, f2, List.length_set, hm,
    dite_true, getD_set_self t m _ [] hm, getD_set_self, List.set_set, hxyz]
  have harg : 3 * m + 1 + 1 + 1 = 3 * (m + 1) := by omega
  rw [harg]
  rfl

theorem writeGradientCells_some :
    ∀ (l : List ℚ) (i : ℕ) (t : List (List ℚ)),
      (∀ j, j < l.length → (i + j) / 3 < t.length) →
      ∃ t', writeGradientCells l i t = some t' ∧ t'.length = t.length
  | [], i, t, _ => ⟨t, rfl, rfl⟩
  | v :: rest, i, t, hb => by
    have h0 : i / 3 < t.length := by simpa using hb 0 (by simp)
    obtain ⟨t', ht', hlen⟩ := writeGradientCells_some rest (i + 1)
      (t.set (i / 3) ((t.getD (i / 3) []).set (i % 3) v)) (by
        intro j hj
        rw [List.length_set]
        have h := hb (j + 1) (by simpa using Nat.succ_lt_succ hj)
        have e : i + 1 + j = i + (j + 1) := by omega
        rw [e]
        exact h)
    refine ⟨t', ?_, by rw [hlen, List.length_set]⟩
    simp only [writeGradientCells]
    rw [dif_pos h0]
    exact ht'

theorem writeGradientCells_none :
    ∀ (l : List ℚ) (i : ℕ) (t : List (List ℚ)),
      (∃ j, j < l.length ∧ ¬((i + j) / 3 < t.length)) →
      writeGradientCells l i t = none
  | [], i, t, h => by
    obtain ⟨j, hj, _⟩ := h
    simp at hj
  | v :: rest, i, t, h => by
    obtain ⟨j, hj, hge⟩ := h
    by_cases h0 : i / 3 < t.length
    · have hj0 : j ≠ 0 := by
        rintro rfl
        simp only [Nat.add_zero] at hge
        exact hge h0
      simp only [writeGradientCells]
      rw [dif_pos h0]
      refine writeGradientCells_none rest (i + 1) _ ⟨j - 1, by simp at hj; omega, ?_⟩
      rw [List.length_set]
      have e : i + 1 + (j - 1) = i + j := by omega
      rw [e]
      exact hge
    · simp only [writeGradientCells]
      rw [dif_neg h0]

theorem writeGradientCells_chunks :
    ∀ (l : List ℚ) (m : ℕ) (t : List (List ℚ)),
      l.length % 3 = 0 → m + l.length / 3 ≤ t.length →
      (∀ j, m ≤ j → j < t.length → (t.getD j []).length = 3) →
      writeGradientCells l (3 * m) t =
        some (t.take m ++ chunk3 l ++ t.drop (m + l.length / 3))
  | [], m, t, _, hb, _ => by
    simp only [writeGradientCells, chunk3, List.length_nil, Nat.zero_div,
      Nat.add_zero, List.nil_append, List.append_nil]
    rw [List.take_append_drop]
  | [v], m, t, hl, _, _ => by simp at hl
  | [v, w], m, t, hl, _, _ => by simp at hl
  | a :: b :: c :: rest, m, t, hl, hb, hrow => by
    have hlen : (a :: b :: c :: rest).length = rest.length + 3 := by simp
    have hm : m < t.length := by
      rw [hlen] at hb
      omega
    have hr : (t.getD m []).length = 3 := hrow m le_rfl hm
    rw [writeGradientCells_step a b c rest m t hm hr]
    have ih := writeGradientCells_chunks rest (m + 1) (t.set m [a, b, c])
      (by rw [hlen] at hl; omega)
      (by rw [List.length_set]; rw [hlen] at hb; omega)
      (by
        intro j hj hjl
        rw [List.length_set] at hjl
        rw [getD_set_ne t m j _ [] (by omega)]
        exact hrow j (by omega) hjl)
    rw [ih]
    rw [take_set_succ t m _ hm, List.drop_set_of_lt _ _ (by omega)]
    have harg : m + 1 + rest.length / 3 = m + (a :: b :: c :: rest).length / 3 := by
      rw [hlen]
      omega
    rw [harg]
    simp [chunk3]

/-- C7 counterexample: `update_gradient` does not replace the table
wholesale.  Updating a 2-row table with the 3 flat values `[9, 9, 9]`
(one 3-vector) leaves the old second row in place, so the resulting table
is not the single-vector table the claim requires. -/
theorem update_gradient_not_wholesale :
    update_gradient [9, 9, 9] [[1, 1, 1], [2, 2, 2]] =
      some [[9, 9, 9], [2, 2, 2]] ∧
    some [[9, 9, 9], [2, 2, 2]] ≠ some ([[9, 9, 9]] : List (List ℚ)) := by
  constructor
  · decide
  · decide

/-- C7 (amended): for every call to `update_gradient` with a flat list of
`3·k` values over a table whose rows all have length 3, the first `k` rows
of the table afterwards are exactly the `k` 3-vectors of the list; the
table is grown to at least `k` rows but never shrunk, so rows beyond `k`
(when the previous table was longer) are retained unchanged. -/
theorem update_gradient_spec (l : List ℚ) (g : List (List ℚ))
    (hrows : ∀ r ∈ g, r.length = 3) (hl : l.length % 3 = 0) :
    update_gradient l g = some (chunk3 l ++ g.drop (l.length / 3)) := by
  unfold update_gradient
  have hglen : (g ++ List.replicate (l.length / 3 - g.length)
      (List.replicate 3 (0 : ℚ))).length =
      g.length + (l.length / 3 - g.length) := by
    simp
  have h := writeGradientCells_chunks l 0
    (g ++ List.replicate (l.length / 3 - g.length) (List.replicate 3 (0 : ℚ)))
    hl
    (by rw [hglen]; omega)
    (by
      intro j _ hjl
      rw [hglen] at hjl
      by_cases hj : j < g.length
      · have : (g ++ List.replicate (l.length / 3 - g.length)
            (List.replicate 3 (0 : ℚ))).getD j [] = g.getD j [] := by
          simp [List.getD_eq_getElem?_getD, List.getElem?_append_left hj]
        rw [this, List.getD_eq_getElem?_getD, List.getElem?_eq_getElem hj]
        exact hrows _ (List.getElem_mem hj)
      · have hlt : j - g.length < l.length / 3 - g.length := by omega
        have : (g ++ List.replicate (l.length / 3 - g.length)
            (List.replicate 3 (0 : ℚ))).getD j [] = List.replicate 3 (0 : ℚ) := by
          rw [List.getD_eq_getElem?_getD,
            List.getElem?_append_right (by omega : g.length ≤ j),
            List.getElem?_replicate, if_pos hlt]
          rfl
        rw [this]
        simp)
  refine Eq.trans h ?_
  simp only [List.take_zero, List.nil_append, Nat.zero_add]
  by_cases hg : g.length ≤ l.length / 3
  · have hrep : (g ++ List.replicate (l.length / 3 - g.length)
        (List.replicate 3 (0 : ℚ))).drop (l.length / 3) = [] :=
      List.drop_eq_nil_of_le (by rw [hglen]; omega)
    have hgd : g.drop (l.length / 3) = [] := List.drop_eq_nil_of_le hg
    rw [hrep, hgd]
  · have hrep : List.replicate (l.length / 3 - g.length)
        (List.replicate 3 (0 : ℚ)) = [] := by
      have : l.length / 3 - g.length = 0 := by omega
      rw [this]
      rfl
    rw [hrep, List.append_nil]

/-- C9: every element write of the `update_gradient` loop is within the
bounds of the grown gradient table whenever the flat input length is a
multiple of 3; when the length is not a multiple of 3 and exceeds 3 times
the current table length, the loop necessarily writes out of bounds (the
modelled result is `none`), so the multiple-of-3 precondition is required. -/
theorem update_gradient_in_bounds :
    (∀ (l : List ℚ) (g : List (List ℚ)), l.length % 3 = 0 →
      (update_gradient l g).isSome = true) ∧
    (∀ (l : List ℚ) (g : List (List ℚ)), l.length % 3 ≠ 0 →
      3 * g.length < l.length → update_gradient l g = none) := by
  constructor
  · intro l g hl
    unfold update_gradient
    obtain ⟨t', ht', _⟩ := writeGradientCells_some l 0
      (g ++ List.replicate (l.length / 3 - g.length) (List.replicate 3 (0 : ℚ)))
      (by
        intro j hj
        simp only [List.length_append, List.length_replicate]
        omega)
    rw [ht']
    rfl
  · intro l g hl hgt
    unfold update_gradient
    apply writeGradientCells_none
    refine ⟨3 * (l.length / 3), by omega, ?_⟩
    simp only [List.length_append, List.length_replicate]
    omega

/-- C9 witness: a multiple-of-3 call succeeds on an empty table; a
length-1 call on an empty table writes out of bounds. -/
theorem update_gradient_in_bounds_witness :
    (([1, 2, 3] : List ℚ).length % 3 = 0 ∧
      (update_gradient [1, 2, 3] []).isSome = true) ∧
    (([1] : List ℚ).length % 3 ≠ 0 ∧
      3 * ([] : List (List ℚ)).length < ([1] : List ℚ).length ∧
      update_gradient [1] [] = none) :=
  ⟨⟨by decide, update_gradient_in_bounds.1 [1, 2, 3] [] (by decide)⟩,
   ⟨by decide, by decide,
    update_gradient_in_bounds.2 [1] [] (by decide) (by decide)⟩⟩

/-- C7 witness for the amended claim: a concrete longer table updated with
one 3-vector keeps its tail. -/
theorem update_gradient_spec_witness :
    ((∀ r ∈ ([[1, 1, 1], [2, 2, 2]] : List (List ℚ)), r.length = 3) ∧
      ([9, 9, 9] : List ℚ).length % 3 = 0) ∧
    update_gradient [9, 9, 9] [[1, 1, 1], [2, 2, 2]] =
      some (chunk3 [9, 9, 9] ++
        ([[1, 1, 1], [2, 2, 2]] : List (List ℚ)).drop
          (([9, 9, 9] : List ℚ).length / 3)) :=
  ⟨⟨by decide, by decide⟩,
   update_gradient_spec [9, 9, 9] [[1, 1, 1], [2, 2, 2]] (by decide) (by decide)⟩

/-! ### C6 -/

/-- C6: on a tick with a non-empty molecule, the closest atom is marked
selected exactly when its Euclidean distance to the pointer is at most
3 times its radius: at distance ≤ 3·radius (including exactly 3·radius)
the selected id is the atom's id, and at distance strictly greater than
3·radius the selected id stays at the −1 sentinel. -/
theorem selection_capture_threshold (p : HapticDeviceManager)
    (current_position : Vec3) (data : HapticData) (force_clamp : ℚ)
    (hne : p.molecule ≠ []) :
    (calculateDistance
        (p.molecule.getD (findClosestAtomIndex p.molecule data).toNat default)
        data ≤
        3 * ((p.molecule.getD (findClosestAtomIndex p.molecule data).toNat
          default).getDistance : ℝ) →
      (forcePhase p current_position data force_clamp).1 =
        (p.molecule.getD (findClosestAtomIndex p.molecule data).toNat
          default).getId) ∧
    (3 * ((p.molecule.getD (findClosestAtomIndex p.molecule data).toNat
          default).getDistance : ℝ) <
        calculateDistance
          (p.molecule.getD (findClosestAtomIndex p.molecule data).toNat default)
          data →
      (forcePhase p current_position data force_clamp).1 = -1) := by
  constructor
  · intro hle
    simp only [List.getD_eq_getElem?_getD] at hle
    simp [forcePhase, hne, hle, apply_ite Prod.fst]
  · intro hgt
    have hnle := not_le.mpr hgt
    simp only [List.getD_eq_getElem?_getD] at hnle
    simp [forcePhase, hne, hnle]

/-- C6 witness: the single-atom molecule `[atomB]` with the pointer at the
origin (distance exactly 3 × radius on the boundary). -/
theorem selection_capture_threshold_witness :
    mgrAtom.molecule ≠ [] ∧
    ((calculateDistance
        (mgrAtom.molecule.getD
          (findClosestAtomIndex mgrAtom.molecule dataOrigin).toNat default)
        dataOrigin ≤
        3 * ((mgrAtom.molecule.getD
          (findClosestAtomIndex mgrAtom.molecule dataOrigin).toNat
          default).getDistance : ℝ) →
      (forcePhase mgrAtom tick0.current_position dataOrigin
        tick0.force_clamp).1 =
        (mgrAtom.molecule.getD
          (findClosestAtomIndex mgrAtom.molecule dataOrigin).toNat
          default).getId) ∧
    (3 * ((mgrAtom.molecule.getD
          (findClosestAtomIndex mgrAtom.molecule dataOrigin).toNat
          default).getDistance : ℝ) <
        calculateDistance
          (mgrAtom.molecule.getD
            (findClosestAtomIndex mgrAtom.molecule dataOrigin).toNat default)
          dataOrigin →
      (forcePhase mgrAtom tick0.current_position dataOrigin
        tick0.force_clamp).1 = -1)) :=
  ⟨by simp [mgrAtom],
   selection_capture_threshold mgrAtom tick0.current_position dataOrigin
     tick0.force_clamp (by simp [mgrAtom])⟩

/-! ### C2 -/

theorem findClosestAux_spec (data : HapticData) :
    ∀ (rest : List AtomData) (i : ℕ) (closest : ℤ) (best : ℝ),
      closest ≠ -1 →
      (findClosestAux data rest i closest best = closest ∧
        ∀ j, j < rest.length →
          best ≤ calculateDistance (rest.getD j default) data) ∨
      (∃ j, j < rest.length ∧
        findClosestAux data rest i closest best = (i : ℤ) + (j : ℤ) ∧
        calculateDistance (rest.getD j default) data < best ∧
        (∀ m, m < rest.length →
          calculateDistance (rest.getD j default) data ≤
            calculateDistance (rest.getD m default) data) ∧
        (∀ m, m < j →
          calculateDistance (rest.getD j default) data <
            calculateDistance (rest.getD m default) data))
  | [], i, closest, best, hcl => by
    left
    refine ⟨rfl, ?_⟩
    intro j hj
    simp at hj
  | atom :: rest, i, closest, best, hcl => by
    by_cases hd : calculateDistance atom data < best
    · have hstep : findClosestAux data (atom :: rest) i closest best =
          findClosestAux data rest (i + 1) (i : ℤ)
            (calculateDistance atom data) := by
        simp [findClosestAux, hd]
      have hi : (i : ℤ) ≠ -1 := by omega
      rcases findClosestAux_spec data rest (i + 1) (i : ℤ)
          (calculateDistance atom data) hi with
        ⟨heq, hall⟩ | ⟨j, hjl, heq, hlt, hmin, hstrict⟩
      · right
        refine ⟨0, by simp, ?_, ?_, ?_, ?_⟩
        · rw [hstep, heq]
          simp
        · simpa using hd
        · intro m hm
          cases m with
          | zero => simp
          | succ m' =>
            simp only [List.getD_cons_zero, List.getD_cons_succ]
            exact hall m' (by simpa using Nat.lt_of_succ_lt_succ hm)
        · intro m hm
          omega
      · right
        refine ⟨j + 1, by simpa using Nat.succ_lt_succ hjl, ?_, ?_, ?_, ?_⟩
        · rw [hstep, heq]
          push_cast
          ring
        · simp only [List.getD_cons_succ]
          exact lt_trans hlt hd
        · intro m hm
          cases m with
          | zero =>
            simp only [List.getD_cons_succ, List.getD_cons_zero]
            exact le_of_lt hlt
          | succ m' =>
            simp only [List.getD_cons_succ]
            exact hmin m' (by simpa using Nat.lt_of_succ_lt_succ hm)
        · intro m hm
          cases m with
          | zero =>
            simp only [List.getD_cons_succ, List.getD_cons_zero]
            exact hlt
          | succ m' =>
            simp only [List.getD_cons_succ]
            exact hstrict m' (Nat.lt_of_succ_lt_succ hm)
    · have hstep : findClosestAux data (atom :: rest) i closest best =
          findClosestAux data rest (i + 1) closest best := by
        simp [findClosestAux, hcl, hd]
      rcases findClosestAux_spec data rest (i + 1) closest best hcl with
        ⟨heq, hall⟩ | ⟨j, hjl, heq, hlt, hmin, hstrict⟩
      · left
        refine ⟨hstep.trans heq, ?_⟩
        intro m hm
        cases m with
        | zero => simpa using not_lt.mp hd
        | succ m' =>
          simp only [List.getD_cons_succ]
          exact hall m' (by simpa using Nat.lt_of_succ_lt_succ hm)
      · right
        refine ⟨j + 1, by simpa using Nat.succ_lt_succ hjl, ?_, ?_, ?_, ?_⟩
        · rw [hstep, heq]
          push_cast
          ring
        · simp only [List.getD_cons_succ]
          exact hlt
        · intro m hm
          cases m with
          | zero =>
            simp only [List.getD_cons_succ, List.getD_cons_zero]
            exact le_of_lt (lt_of_lt_of_le hlt (not_lt.mp hd))
          | succ m' =>
            simp only [List.getD_cons_succ]
            exact hmin m' (by simpa using Nat.lt_of_succ_lt_succ hm)
        · intro m hm
          cases m with
          | zero =>
            simp only [List.getD_cons_succ, List.getD_cons_zero]
            exact lt_of_lt_of_le hlt (not_lt.mp hd)
          | succ m' =>
            simp only [List.getD_cons_succ]
            exact hstrict m' (Nat.lt_of_succ_lt_succ hm)

/-- C2: `findClosestAtomIndex` returns −1 on the empty molecule, and on a
non-empty molecule returns the index of an atom whose Euclidean distance
to the pointer is minimal over the list, the lowest such index when
several atoms tie (strictly smaller distance than every earlier index). -/
theorem findClosestAtomIndex_spec (molecule : List AtomData)
    (data : HapticData) :
    (molecule = [] → findClosestAtomIndex molecule data = -1) ∧
    (molecule ≠ [] → ∃ k, k < molecule.length ∧
      findClosestAtomIndex molecule data = (k : ℤ) ∧
      (∀ j, j < molecule.length →
        calculateDistance (molecule.getD k default) data ≤
          calculateDistance (molecule.getD j default) data) ∧
      (∀ j, j < k →
        calculateDistance (molecule.getD k default) data <
          calculateDistance (molecule.getD j default) data)) := by
  constructor
  · intro h
    rw [h]
    rfl
  · intro hne
    obtain ⟨atom, rest, rfl⟩ := List.exists_cons_of_ne_nil hne
    have hstep : findClosestAtomIndex (atom :: rest) data =
        findClosestAux data rest 1 ((0 : ℕ) : ℤ)
          (calculateDistance atom data) := by
      simp [findClosestAtomIndex, findClosestAux]
    rcases findClosestAux_spec data rest 1 ((0 : ℕ) : ℤ)
        (calculateDistance atom data) (by omega) with
      ⟨heq, hall⟩ | ⟨j, hjl, heq, hlt, hmin, hstrict⟩
    · refine ⟨0, by simp, hstep.trans heq, ?_, ?_⟩
      · intro m hm
        cases m with
        | zero => simp
        | succ m' =>
          simp only [List.getD_cons_zero, List.getD_cons_succ]
          exact hall m' (by simpa using Nat.lt_of_succ_lt_succ hm)
      · intro m hm
        omega
    · refine ⟨j + 1, by simpa using Nat.succ_lt_succ hjl, ?_, ?_, ?_⟩
      · rw [hstep, heq]
        push_cast
        ring
      · intro m hm
        cases m with
        | zero =>
          simp only [List.getD_cons_succ, List.getD_cons_zero]
          exact le_of_lt hlt
        | succ m' =>
          simp only [List.getD_cons_succ]
          exact hmin m' (by simpa using Nat.lt_of_succ_lt_succ hm)
      · intro m hm
        cases m with
        | zero =>
          simp only [List.getD_cons_succ, List.getD_cons_zero]
          exact hlt
        | succ m' =>
          simp only [List.getD_cons_succ]
          exact hstrict m' (Nat.lt_of_succ_lt_succ hm)

/-- C2 witness: the empty molecule yields −1, and the one-atom molecule
`[atomB]` yields a minimal index. -/
theorem findClosestAtomIndex_spec_witness :
    (findClosestAtomIndex [] dataOrigin = -1) ∧
    (([atomB] : List AtomData) ≠ [] ∧ ∃ k, k < ([atomB] : List AtomData).length ∧
      findClosestAtomIndex [atomB] dataOrigin = (k : ℤ) ∧
      (∀ j, j < ([atomB] : List AtomData).length →
        calculateDistance (([atomB] : List AtomData).getD k default) dataOrigin ≤
          calculateDistance (([atomB] : List AtomData).getD j default) dataOrigin) ∧
      (∀ j, j < k →
        calculateDistance (([atomB] : List AtomData).getD k default) dataOrigin <
          calculateDistance (([atomB] : List AtomData).getD j default) dataOrigin)) :=
  ⟨(findClosestAtomIndex_spec [] dataOrigin).1 rfl,
   by simp,
   (findClosestAtomIndex_spec [atomB] dataOrigin).2 (by simp)⟩

/-! ### C1 -/

theorem rvecMagnitude_cast (a b c : ℚ) :
    rvecMagnitude ⟨(a : ℝ), (b : ℝ), (c : ℝ)⟩ = vecMagnitude ⟨a, b, c⟩ := by
  unfold rvecMagnitude vecMagnitude
  congr 1
  push_cast
  ring

theorem scaleForce_mag (force : Vec3) (s c : ℚ) (hc : 0 ≤ c) :
    rvecMagnitude (scaleForce force s c) ≤ (c : ℝ) ∧
    ((c : ℝ) < vecMagnitude ⟨s * force.x, s * force.y, s * force.z⟩ →
      rvecMagnitude (scaleForce force s c) = (c : ℝ)) := by
  have hc' : (0 : ℝ) ≤ (c : ℝ) := by exact_mod_cast hc
  by_cases hM : vecMagnitude ⟨s * force.x, s * force.y, s * force.z⟩ > (c : ℝ)
  · have hM0 : (0 : ℝ) < vecMagnitude ⟨s * force.x, s * force.y, s * force.z⟩ :=
      lt_of_le_of_lt hc' hM
    have hMne : vecMagnitude ⟨s * force.x, s * force.y, s * force.z⟩ ≠ 0 :=
      ne_of_gt hM0
    have hres : scaleForce force s c =
        ⟨((s * force.x : ℚ) : ℝ) /
            vecMagnitude ⟨s * force.x, s * force.y, s * force.z⟩ * (c : ℝ),
          ((s * force.y : ℚ) : ℝ) /
            vecMagnitude ⟨s * force.x, s * force.y, s * force.z⟩ * (c : ℝ),
          ((s * force.z : ℚ) : ℝ) /
            vecMagnitude ⟨s * force.x, s * force.y, s * force.z⟩ * (c : ℝ)⟩ := by
      rw [scaleForce, if_pos hM]
    have hmageq : rvecMagnitude (scaleForce force s c) = (c : ℝ) := by
      rw [hres]
      unfold rvecMagnitude
      have hfac :
          ((s * force.x : ℚ) : ℝ) /
              vecMagnitude ⟨s * force.x, s * force.y, s * force.z⟩ * (c : ℝ) *
            (((s * force.x : ℚ) : ℝ) /
              vecMagnitude ⟨s * force.x, s * force.y, s * force.z⟩ * (c : ℝ)) +
          ((s * force.y : ℚ) : ℝ) /
              vecMagnitude ⟨s * force.x, s * force.y, s * force.z⟩ * (c : ℝ) *
            (((s * force.y : ℚ) : ℝ) /
              vecMagnitude ⟨s * force.x, s * force.y, s * force.z⟩ * (c : ℝ)) +
          ((s * force.z : ℚ) : ℝ) /
              vecMagnitude ⟨s * force.x, s * force.y, s * force.z⟩ * (c : ℝ) *
            (((s * force.z : ℚ) : ℝ) /
              vecMagnitude ⟨s * force.x, s * force.y, s * force.z⟩ * (c : ℝ)) =
          ((c : ℝ) / vecMagnitude ⟨s * force.x, s * force.y, s * force.z⟩) ^ 2 *
            (((s * force.x : ℚ) : ℝ) * ((s * force.x : ℚ) : ℝ) +
             ((s * force.y : ℚ) : ℝ) * ((s * force.y : ℚ) : ℝ) +
             ((s * force.z : ℚ) : ℝ) * ((s * force.z : ℚ) : ℝ)) := by
        ring
      rw [hfac, Real.sqrt_mul (sq_nonneg _), Real.sqrt_sq_eq_abs]
      have hsum : ((s * force.x : ℚ) : ℝ) * ((s * force.x : ℚ) : ℝ) +
          ((s * force.y : ℚ) : ℝ) * ((s * force.y : ℚ) : ℝ) +
          ((s * force.z : ℚ) : ℝ) * ((s * force.z : ℚ) : ℝ) =
          ((s * force.x * (s * force.x) + s * force.y * (s * force.y) +
            s * force.z * (s * force.z) : ℚ) : ℝ) := by
        push_cast
        ring
      rw [hsum]
      have hMdef : Real.sqrt ((s * force.x * (s * force.x) +
          s * force.y * (s * force.y) + s * force.z * (s * force.z) : ℚ) : ℝ) =
          vecMagnitude ⟨s * force.x, s * force.y, s * force.z⟩ := rfl
      rw [hMdef, abs_of_nonneg (div_nonneg hc' (le_of_lt hM0)),
        div_mul_cancel₀ _ hMne]
    exact ⟨le_of_eq hmageq, fun _ => hmageq⟩
  · have hres : scaleForce force s c =
        ⟨((s * force.x : ℚ) : ℝ), ((s * force.y : ℚ) : ℝ),
          ((s * force.z : ℚ) : ℝ)⟩ := by
      rw [scaleForce, if_neg hM]
    constructor
    · rw [hres, rvecMagnitude_cast]
      exact not_lt.mp hM
    · intro h
      exact absurd h hM

/-- C1: the force written by `setForce`.  When guidance mode is enabled and
the second button is held, the written force is
`((atomPos − gradient) − atomPos)` scaled by the stiffness coefficient 0.8
and clamped by `scaleForce`: its magnitude never exceeds the device's
nominal continuous-force ceiling, and equals exactly the ceiling whenever
the scaled vector's magnitude would exceed it.  In every other flag state
the written force is exactly the zero vector. -/
theorem setForce_guidance_clamp (position atom_pos atom_gradient : Vec3)
    (g sb : Bool) (force_clamp : ℚ) (hc : 0 ≤ force_clamp) :
    (g = true → sb = true →
      setForce position atom_pos atom_gradient g sb force_clamp =
        scaleForce ⟨atom_pos.x - atom_gradient.x - atom_pos.x,
          atom_pos.y - atom_gradient.y - atom_pos.y,
          atom_pos.z - atom_gradient.z - atom_pos.z⟩ 0.8 force_clamp ∧
      rvecMagnitude (setForce position atom_pos atom_gradient g sb force_clamp) ≤
        (force_clamp : ℝ) ∧
      ((force_clamp : ℝ) < vecMagnitude
          ⟨0.8 * (atom_pos.x - atom_gradient.x - atom_pos.x),
           0.8 * (atom_pos.y - atom_gradient.y - atom_pos.y),
           0.8 * (atom_pos.z - atom_gradient.z - atom_pos.z)⟩ →
        rvecMagnitude (setForce position atom_pos atom_gradient g sb force_clamp) =
          (force_clamp : ℝ))) ∧
    ((g = true ∧ sb = true → False) →
      setForce position atom_pos atom_gradient g sb force_clamp = ⟨0, 0, 0⟩) := by
  constructor
  · intro hg hsb
    have hval : setForce position atom_pos atom_gradient g sb force_clamp =
        scaleForce ⟨atom_pos.x - atom_gradient.x - atom_pos.x,
          atom_pos.y - atom_gradient.y - atom_pos.y,
          atom_pos.z - atom_gradient.z - atom_pos.z⟩ 0.8 force_clamp := by
      rw [hg, hsb]
      rfl
    refine ⟨hval, ?_, ?_⟩
    · rw [hval]
      exact (scaleForce_mag _ 0.8 force_clamp hc).1
    · intro h
      rw [hval]
      exact (scaleForce_mag _ 0.8 force_clamp hc).2 h
  · intro hno
    cases g with
    | false => rfl
    | true =>
      cases sb with
      | false => rfl
      | true => exact absurd ⟨rfl, rfl⟩ hno

/-- C1 witness: guidance on, second button held, gradient (3,0,0) and
ceiling 1 (the raw scaled force has magnitude 2.4 and is clamped). -/
theorem setForce_guidance_clamp_witness :
    (0 : ℚ) ≤ 1 ∧
    ((true = true → true = true →
      setForce ⟨0, 0, 0⟩ ⟨0, 0, 0⟩ ⟨3, 0, 0⟩ true true 1 =
        scaleForce ⟨(0 : ℚ) - 3 - 0, (0 : ℚ) - 0 - 0, (0 : ℚ) - 0 - 0⟩ 0.8 1 ∧
      rvecMagnitude (setForce ⟨0, 0, 0⟩ ⟨0, 0, 0⟩ ⟨3, 0, 0⟩ true true 1) ≤
        ((1 : ℚ) : ℝ) ∧
      (((1 : ℚ) : ℝ) < vecMagnitude
          ⟨0.8 * ((0 : ℚ) - 3 - 0), 0.8 * ((0 : ℚ) - 0 - 0),
           0.8 * ((0 : ℚ) - 0 - 0)⟩ →
        rvecMagnitude (setForce ⟨0, 0, 0⟩ ⟨0, 0, 0⟩ ⟨3, 0, 0⟩ true true 1) =
          ((1 : ℚ) : ℝ))) ∧
    ((true = true ∧ true = true → False) →
      setForce ⟨0, 0, 0⟩ ⟨0, 0, 0⟩ ⟨3, 0, 0⟩ true true 1 = ⟨0, 0, 0⟩)) :=
  ⟨by norm_num,
   setForce_guidance_clamp ⟨0, 0, 0⟩ ⟨0, 0, 0⟩ ⟨3, 0, 0⟩ true true 1 (by norm_num)⟩

/-! ### C5 -/

/-- C5 counterexample: the round trip can fail for an invertible but
non-affine 4×4 matrix.  `permMat` is its own exact inverse, the scale
factor 1 is nonzero, yet the round trip of `(0, 0, 5)` does not
reconstruct the vector, because the transforms use only the top three
matrix rows. -/
theorem transform_round_trip_counterexample :
    permMat * permMat = 1 ∧ (1 : ℤ) ≠ 0 ∧
    transformToHapticCoordinates
      (transformToAppCoordinates ⟨0, 0, 5⟩ permMat 1).getPosX
      (transformToAppCoordinates ⟨0, 0, 5⟩ permMat 1).getPosY
      (transformToAppCoordinates ⟨0, 0, 5⟩ permMat 1).getPosZ permMat 1 ≠
      (⟨0, 0, 5⟩ : Vec3) := by
  refine ⟨?_, by decide, ?_⟩
  · ext i j
    fin_cases i <;> fin_cases j <;>
      simp [permMat, Matrix.mul_apply, Fin.sum_univ_four, Matrix.one_apply,
        Matrix.vecHead, Matrix.vecTail, Function.comp]
  · have happ : transformToAppCoordinates ⟨0, 0, 5⟩ permMat 1 =
        (⟨0, 0, 1⟩ : HapticData) := by
      simp [transformToAppCoordinates,
        show permMat 0 0 = 1 from rfl, show permMat 0 1 = 0 from rfl,
        show permMat 0 2 = 0 from rfl, show permMat 0 3 = 0 from rfl,
        show permMat 1 0 = 0 from rfl, show permMat 1 1 = 1 from rfl,
        show permMat 1 2 = 0 from rfl, show permMat 1 3 = 0 from rfl,
        show permMat 2 0 = 0 from rfl, show permMat 2 1 = 0 from rfl,
        show permMat 2 2 = 0 from rfl, show permMat 2 3 = 1 from rfl]
    rw [happ]
    have hback : transformToHapticCoordinates (⟨0, 0, 1⟩ : HapticData).getPosX
        (⟨0, 0, 1⟩ : HapticData).getPosY (⟨0, 0, 1⟩ : HapticData).getPosZ
        permMat 1 = (⟨0, 0, 1⟩ : Vec3) := by
      simp [transformToHapticCoordinates, HapticData.getPosX,
        HapticData.getPosY, HapticData.getPosZ,
        show permMat 0 0 = 1 from rfl, show permMat 0 1 = 0 from rfl,
        show permMat 0 2 = 0 from rfl, show permMat 0 3 = 0 from rfl,
        show permMat 1 0 = 0 from rfl, show permMat 1 1 = 1 from rfl,
        show permMat 1 2 = 0 from rfl, show permMat 1 3 = 0 from rfl,
        show permMat 2 0 = 0 from rfl, show permMat 2 1 = 0 from rfl,
        show permMat 2 2 = 0 from rfl, show permMat 2 3 = 1 from rfl]
    rw [hback]
    intro h
    have := congrArg Vec3.z h
    norm_num at this

/-- C5 (amended): for every 4×4 affine transform matrix `T` (last row
`(0, 0, 0, 1)`) with exact inverse `T⁻¹`, every scale factor `s ≠ 0` and
every device-native 3-vector `v`, `transformToHapticCoordinates` applied
with `T⁻¹` and `s` to the result of `transformToAppCoordinates v T s`
reconstructs `v` exactly (over the rationals); without the affine row the
round trip can fail, since the transforms use only the top three rows. -/
theorem transform_round_trip (T Tinv : Mat4) (s : ℤ) (v : Vec3)
    (hinv : Tinv * T = 1)
    (haff : ∀ j, T 3 j = if j = 3 then 1 else 0) (hs : s ≠ 0) :
    transformToHapticCoordinates
      (transformToAppCoordinates v T s).getPosX
      (transformToAppCoordinates v T s).getPosY
      (transformToAppCoordinates v T s).getPosZ Tinv s = v := by
  have hs' : ((s : ℚ)) ≠ 0 := Int.cast_ne_zero.mpr hs
  have e : ∀ i k : Fin 4,
      Tinv i 0 * T 0 k + Tinv i 1 * T 1 k + Tinv i 2 * T 2 k +
        Tinv i 3 * T 3 k = if i = k then 1 else 0 := by
    intro i k
    have h := congrFun (congrFun hinv i) k
    rwa [Matrix.mul_apply, Fin.sum_univ_four, Matrix.one_apply] at h
  have a0 : T 3 0 = 0 := by simpa using haff 0
  have a1 : T 3 1 = 0 := by simpa using haff 1
  have a2 : T 3 2 = 0 := by simpa using haff 2
  have a3 : T 3 3 = 1 := by simpa using haff 3
  obtain ⟨vx, vy, vz⟩ := v
  have comp : ∀ i : Fin 4,
      Tinv i 0 * ((T 0 0 * vx + T 0 1 * vy + T 0 2 * vz + T 0 3) / (s : ℚ)) * (s : ℚ) +
      Tinv i 1 * ((T 1 0 * vx + T 1 1 * vy + T 1 2 * vz + T 1 3) / (s : ℚ)) * (s : ℚ) +
      Tinv i 2 * ((T 2 0 * vx + T 2 1 * vy + T 2 2 * vz + T 2 3) / (s : ℚ)) * (s : ℚ) +
      Tinv i 3 =
      Tinv i 0 * (T 0 0 * vx + T 0 1 * vy + T 0 2 * vz + T 0 3) +
      Tinv i 1 * (T 1 0 * vx + T 1 1 * vy + T 1 2 * vz + T 1 3) +
      Tinv i 2 * (T 2 0 * vx + T 2 1 * vy + T 2 2 * vz + T 2 3) +
      Tinv i 3 := by
    intro i
    field_simp
  have e00 := e 0 0
  have e01 := e 0 1
  have e02 := e 0 2
  have e03 := e 0 3
  have e10 := e 1 0
  have e11 := e 1 1
  have e12 := e 1 2
  have e13 := e 1 3
  have e20 := e 2 0
  have e21 := e 2 1
  have e22 := e 2 2
  have e23 := e 2 3
  rw [a0] at e00 e10 e20
  rw [a1] at e01 e11 e21
  rw [a2] at e02 e12 e22
  rw [a3] at e03 e13 e23
  simp at e00 e01 e02 e03 e10 e11 e12 e13 e20 e21 e22 e23
  simp only [transformToAppCoordinates, transformToHapticCoordinates,
    HapticData.getPosX, HapticData.getPosY, HapticData.getPosZ]
  rw [Vec3.mk.injEq]
  refine ⟨?_, ?_, ?_⟩
  · rw [comp 0]
    linear_combination vx * e00 + vy * e01 + vz * e02 + e03
  · rw [comp 1]
    linear_combination vx * e10 + vy * e11 + vz * e12 + e13
  · rw [comp 2]
    linear_combination vx * e20 + vy * e21 + vz * e22 + e23

/-- C5 witness: the identity transform pair with scale factor 2 round-trips
the vector (1, 2, 3). -/
theorem transform_round_trip_witness :
    ((1 : Mat4) * 1 = 1 ∧
      (∀ j, (1 : Mat4) 3 j = if j = 3 then 1 else 0) ∧ (2 : ℤ) ≠ 0) ∧
    transformToHapticCoordinates
      (transformToAppCoordinates ⟨1, 2, 3⟩ 1 2).getPosX
      (transformToAppCoordinates ⟨1, 2, 3⟩ 1 2).getPosY
      (transformToAppCoordinates ⟨1, 2, 3⟩ 1 2).getPosZ 1 2 = (⟨1, 2, 3⟩ : Vec3) :=
  ⟨⟨by simp, by intro j; simp [Matrix.one_apply, eq_comm], by decide⟩,
   transform_round_trip 1 1 2 ⟨1, 2, 3⟩ (by simp)
     (by intro j; simp [Matrix.one_apply, eq_comm]) (by decide)⟩
